import Mathlib

/-!
Verification of the frame admission and adaptive performance controller of
react-native-mediapipe-pose, as implemented in the native view
(ReactNativeMediapipePoseView, the revision with output throttling and
pose-data streaming) and in PoseDetectionService.swift.

Times are modelled as rationals (seconds), FPS values as rationals, and
Swift `Int` as `ℤ`.  Event emission is modelled by returning an
`Option` event alongside the updated state; dictionary state is modelled
by association lists with unique keys.
-/

namespace MediapipePose

/-- Device tiers, from the `DeviceTier` enum of the native view. -/
inductive DeviceTier where
  | high
  | medium
  | low
  | unknown
deriving DecidableEq

/-- `recommendedFPS` computed property of `DeviceTier`. -/
def DeviceTier.recommendedFPS : DeviceTier → ℤ
  | .high => 60
  | .medium => 30
  | .low => 15
  | .unknown => 30

/-- Payload of an `onFrameProcessed` event: plain FPS reports carry `fps` and
`frameCount`; auto-adjustment events additionally carry `autoAdjusted`,
`newTargetFPS` and `reason`. -/
structure FrameProcessedEvent where
  fps : ℚ
  frameCount : ℤ
  autoAdjusted : Bool
  newTargetFPS : Option ℤ
  reason : Option String
deriving DecidableEq

/-- Payload of an `onPoseDetected` event (the essential data sent over the
bridge): converted landmarks, processing time, and the emission timestamp. -/
structure PoseDetectedEvent where
  landmarks : List (ℚ × ℚ × ℚ × ℚ)
  processingTime : ℚ
  timestamp : ℚ
deriving DecidableEq

/-- The mutable instance fields of `ReactNativeMediapipePoseView` that the
frame-rate governor, auto-tuning controller and output throttles touch. -/
structure ViewState where
  frameCount : ℤ
  lastFPSTime : ℚ
  currentFPS : ℚ
  targetFPS : ℤ
  lastFrameTime : ℚ
  fpsHistory : List ℚ
  lastPerformanceCheck : ℚ
  isAutoAdjustEnabled : Bool
  deviceTier : DeviceTier
  isPoseDetectionEnabled : Bool
  enablePoseDataStreaming : Bool
  poseDataThrottleMs : ℤ
  lastPoseDataSentTime : ℚ
  lastReportedFPS : ℚ
  fpsChangeThreshold : ℚ
  lastFPSReportTime : ℚ
  fpsReportThrottleMs : ℚ
deriving DecidableEq

/-- `performanceCheckInterval` field: 5.0 seconds. -/
def performanceCheckInterval : ℚ := 5

/-- `setTargetFPS(_ fps: Int)`: `targetFPS = max(1, min(fps, 60))`. -/
def setTargetFPS (s : ViewState) (fps : ℤ) : ViewState :=
  { s with targetFPS := max 1 (min fps 60) }

/-- `setAutoAdjustFPS(_ enabled: Bool)`: store the flag and clear
`fpsHistory` when disabling. -/
def setAutoAdjustFPS (s : ViewState) (enabled : Bool) : ViewState :=
  { s with isAutoAdjustEnabled := enabled,
           fpsHistory := if enabled then s.fpsHistory else [] }

/-- `setPoseDataThrottleMs(_ throttleMs: Int)`: `max(16, throttleMs)`. -/
def setPoseDataThrottleMs (s : ViewState) (throttleMs : ℤ) : ViewState :=
  { s with poseDataThrottleMs := max 16 throttleMs }

/-- `setFPSChangeThreshold(_ threshold: Double)`: `max(0.5, threshold)`. -/
def setFPSChangeThreshold (s : ViewState) (threshold : ℚ) : ViewState :=
  { s with fpsChangeThreshold := max (1/2) threshold }

/-- `setFPSReportThrottleMs(_ throttleMs: Double)`: `max(100, throttleMs)`. -/
def setFPSReportThrottleMs (s : ViewState) (throttleMs : ℚ) : ViewState :=
  { s with fpsReportThrottleMs := max 100 throttleMs }

/-- `shouldProcessFrame()`: admit when `currentTime - lastFrameTime >=
1.0 / Double(targetFPS)`, updating `lastFrameTime` on admission. -/
def shouldProcessFrame (s : ViewState) (currentTime : ℚ) : Bool × ViewState :=
  if currentTime - s.lastFrameTime ≥ 1 / (s.targetFPS : ℚ) then
    (true, { s with lastFrameTime := currentTime })
  else
    (false, s)

/-- The `fpsHistory.append` / `removeFirst`-on-overflow step of
`calculateFPS`: keep the last 10 readings. -/
def recordFPSHistory (hist : List ℚ) (v : ℚ) : List ℚ :=
  let h := hist ++ [v]
  if h.length > 10 then h.tail else h

/-- The FPS-report throttle inside `calculateFPS`: emit when the change
magnitude reaches `fpsChangeThreshold` or `fpsReportThrottleMs`
milliseconds elapsed since the last report; on emission record both the
reported value and the report time. -/
def fpsReportThrottle (s : ViewState) (currentTime : ℚ) :
    ViewState × Option FrameProcessedEvent :=
  let timeSinceLastReport := (currentTime - s.lastFPSReportTime) * 1000
  let fpsChange := |s.currentFPS - s.lastReportedFPS|
  if fpsChange ≥ s.fpsChangeThreshold ∨ timeSinceLastReport ≥ s.fpsReportThrottleMs then
    ({ s with lastReportedFPS := s.currentFPS, lastFPSReportTime := currentTime },
     some { fps := s.currentFPS, frameCount := s.frameCount,
            autoAdjusted := false, newTargetFPS := none, reason := none })
  else
    (s, none)

/-- `checkPerformanceAndAdjust(currentTime:)`: self-throttled to
`performanceCheckInterval`; with at least 5 history samples, lower the
target by 5 (floored at 15, then clamped by `setTargetFPS`) when
efficiency is below 0.8, or raise it by 5 (capped at
`deviceTier.recommendedFPS`) when efficiency is above 0.95 and the target
is below the tier recommendation; adjustment events always carry
`autoAdjusted`, `newTargetFPS` and `reason`. -/
def checkPerformanceAndAdjust (s : ViewState) (currentTime : ℚ) :
    ViewState × Option FrameProcessedEvent :=
  if s.isAutoAdjustEnabled = true ∧ currentTime - s.lastPerformanceCheck ≥ performanceCheckInterval then
    let s1 : ViewState := { s with lastPerformanceCheck := currentTime }
    if s1.fpsHistory.length ≥ 5 then
      let averageFPS := s1.fpsHistory.sum / (s1.fpsHistory.length : ℚ)
      let fpsEfficiency := averageFPS / (s1.targetFPS : ℚ)
      if fpsEfficiency < 8/10 ∧ s1.targetFPS > 15 then
        let newTargetFPS := max 15 (s1.targetFPS - 5)
        let s2 := setTargetFPS s1 newTargetFPS
        let s3 : ViewState :=
          { s2 with lastReportedFPS := s2.currentFPS, lastFPSReportTime := currentTime }
        (s3, some { fps := s3.currentFPS, frameCount := s3.frameCount,
                    autoAdjusted := true, newTargetFPS := some newTargetFPS,
                    reason := some "Performance optimization" })
      else if fpsEfficiency > 95/100 ∧ s1.targetFPS < s1.deviceTier.recommendedFPS then
        let newTargetFPS := min s1.deviceTier.recommendedFPS (s1.targetFPS + 5)
        let s2 := setTargetFPS s1 newTargetFPS
        let s3 : ViewState :=
          { s2 with lastReportedFPS := s2.currentFPS, lastFPSReportTime := currentTime }
        (s3, some { fps := s3.currentFPS, frameCount := s3.frameCount,
                    autoAdjusted := true, newTargetFPS := some newTargetFPS,
                    reason := some "Performance headroom available" })
      else
        (s1, none)
    else
      (s1, none)
  else
    (s, none)

/-- `calculateFPS()` called at time `currentTime`: count the frame; once a
second has elapsed since `lastFPSTime`, recompute `currentFPS`, reset the
window, push the measurement onto `fpsHistory`, run the FPS-report
throttle, and then run `checkPerformanceAndAdjust`.  Returns the new
state, the throttled FPS-report event (if any) and the auto-adjustment
event (if any). -/
def calculateFPS (s : ViewState) (currentTime : ℚ) :
    ViewState × Option FrameProcessedEvent × Option FrameProcessedEvent :=
  let s0 : ViewState := { s with frameCount := s.frameCount + 1 }
  let deltaTime := currentTime - s0.lastFPSTime
  if deltaTime ≥ 1 then
    let s1 : ViewState :=
      { s0 with currentFPS := (s0.frameCount : ℚ) / deltaTime,
                frameCount := 0,
                lastFPSTime := currentTime }
    let s2 : ViewState := { s1 with fpsHistory := recordFPSHistory s1.fpsHistory s1.currentFPS }
    let (s3, fpsEvent) := fpsReportThrottle s2 currentTime
    let (s4, adjEvent) := checkPerformanceAndAdjust s3 currentTime
    (s4, fpsEvent, adjEvent)
  else
    (s0, none, none)

/-- The `poseDetectionService(_:didDetectPose:processingTime:)` delegate
handler: discard the result while pose detection is disabled; otherwise,
when streaming is enabled and `poseDataThrottleMs` milliseconds elapsed
since `lastPoseDataSentTime`, emit the essential data and record the
emission time. -/
def onPoseResult (s : ViewState) (currentTime : ℚ) (landmarks : List (ℚ × ℚ × ℚ × ℚ))
    (processingTime : ℚ) : ViewState × Option PoseDetectedEvent :=
  if s.isPoseDetectionEnabled = true then
    if s.enablePoseDataStreaming = true then
      let timeSinceLastSent := (currentTime - s.lastPoseDataSentTime) * 1000
      if timeSinceLastSent ≥ (s.poseDataThrottleMs : ℚ) then
        ({ s with lastPoseDataSentTime := currentTime },
         some { landmarks := landmarks, processingTime := processingTime,
                timestamp := currentTime })
      else
        (s, none)
    else
      (s, none)
  else
    (s, none)

/-- Iterate `shouldProcessFrame` over a list of frame-arrival times,
collecting the timestamps of the admitted frames. -/
def runAdmission (s : ViewState) : List ℚ → ViewState × List ℚ
  | [] => (s, [])
  | t :: ts =>
    let (ok, s') := shouldProcessFrame s t
    let (sF, rest) := runAdmission s' ts
    (sF, if ok then t :: rest else rest)

/-- Iterate the pose-result delegate handler over a list of
(arrival time, landmarks, processing time) triples, collecting the
emitted events. -/
def runPoseResults (s : ViewState) : List (ℚ × List (ℚ × ℚ × ℚ × ℚ) × ℚ) →
    ViewState × List PoseDetectedEvent
  | [] => (s, [])
  | r :: rs =>
    let step := onPoseResult s r.1 r.2.1 r.2.2
    let rest := runPoseResults step.1 rs
    (rest.1, match step.2 with | some e => e :: rest.2 | none => rest.2)

/-- An external mutation of the governor's target: either a host-driven
`setTargetFPS` call or one auto-tuning check. -/
inductive GovAction where
  | set (fps : ℤ)
  | check (currentTime : ℚ)

/-- Apply one `GovAction` to the view state. -/
def applyGovAction (s : ViewState) : GovAction → ViewState
  | .set fps => setTargetFPS s fps
  | .check t => (checkPerformanceAndAdjust s t).1

/-- Apply a sequence of `GovAction`s. -/
def runGovActions (s : ViewState) (acts : List GovAction) : ViewState :=
  acts.foldl applyGovAction s

/-- Iterate `checkPerformanceAndAdjust` over a list of check times. -/
def runChecks (s : ViewState) : List ℚ → ViewState
  | [] => s
  | t :: ts => runChecks (checkPerformanceAndAdjust s t).1 ts

/- ## PoseDetectionService: in-flight request map -/

/-- Lookup in the `frameStartTimes` dictionary. -/
def lookupKey (m : List (ℤ × ℚ)) (k : ℤ) : Option ℚ :=
  match m with
  | [] => none
  | (k', v) :: rest => if k' = k then some v else lookupKey rest k

/-- Swift `Dictionary` subscript assignment: replace any existing binding
for the key. -/
def dictInsert (m : List (ℤ × ℚ)) (k : ℤ) (v : ℚ) : List (ℤ × ℚ) :=
  (k, v) :: m.filter (fun p => decide (p.1 ≠ k))

/-- Swift `Dictionary.removeValue(forKey:)`: the removed value (if any)
and the remaining dictionary. -/
def dictRemove (m : List (ℤ × ℚ)) (k : ℤ) : Option ℚ × List (ℤ × ℚ) :=
  (lookupKey m k, m.filter (fun p => decide (p.1 ≠ k)))

/-- `detectAsync`'s bookkeeping on `frameStartTimes`: record the dispatch
start time under the correlation timestamp; on a dispatch error the entry
is removed again. -/
def detectAsyncFrameTimes (m : List (ℤ × ℚ)) (timeStamps : ℤ) (now : ℚ)
    (dispatchSucceeds : Bool) : List (ℤ × ℚ) :=
  let m' := dictInsert m timeStamps now
  if dispatchSucceeds then m' else (dictRemove m' timeStamps).2

/-- `poseLandmarker(_:didFinishDetection:timestampInMilliseconds:error:)`:
remove the start time recorded for the correlation timestamp, defaulting
to the arrival time when absent, and report
`(endTime - startTime) * 1000` as the processing time in milliseconds. -/
def didFinishDetection (m : List (ℤ × ℚ)) (timestampInMilliseconds : ℤ)
    (endTime : ℚ) : ℚ × List (ℤ × ℚ) :=
  let r := dictRemove m timestampInMilliseconds
  let startTime := r.1.getD endTime
  ((endTime - startTime) * 1000, r.2)

/-- A concrete view state matching the instance-field initial values of
the native view (camera clocks started at 0, device tier left unknown),
used to instantiate theorems on concrete inputs. -/
def baseState : ViewState where
  frameCount := 0
  lastFPSTime := 0
  currentFPS := 0
  targetFPS := 30
  lastFrameTime := 0
  fpsHistory := []
  lastPerformanceCheck := 0
  isAutoAdjustEnabled := true
  deviceTier := .unknown
  isPoseDetectionEnabled := false
  enablePoseDataStreaming := false
  poseDataThrottleMs := 100
  lastPoseDataSentTime := 0
  lastReportedFPS := 0
  fpsChangeThreshold := 2
  lastFPSReportTime := 0
  fpsReportThrottleMs := 500

/-- Concrete degraded state: target 30 FPS, five measured samples of 20. -/
def degradedState : ViewState :=
  { baseState with targetFPS := 30, fpsHistory := [20, 20, 20, 20, 20] }

/-- Concrete FPS-report state: previous report of 30.0 at time 100 s,
current measurement 33.0, default throttle parameters. -/
def fpsJumpState : ViewState :=
  { baseState with currentFPS := 33, lastReportedFPS := 30,
                   lastFPSReportTime := 100, fpsChangeThreshold := 2,
                   fpsReportThrottleMs := 500 }

/-- Concrete streaming state: pose detection and pose-data streaming
enabled, default 100 ms result throttle. -/
def streamState : ViewState :=
  { baseState with isPoseDetectionEnabled := true, enablePoseDataStreaming := true }

/- ## Helper lemmas -/

theorem countP_le_countP {α : Type} (p q : α → Bool) (l : List α)
    (h : ∀ a ∈ l, p a = true → q a = true) : l.countP p ≤ l.countP q := by
  induction l with
  | nil => simp
  | cons a rest ih =>
    rw [List.countP_cons, List.countP_cons]
    have hrest := ih (fun x hx => h x (List.mem_cons_of_mem a hx))
    by_cases hp : p a = true
    · rw [hp, h a (List.mem_cons_self a rest) hp]
      omega
    · simp only [Bool.not_eq_true] at hp
      rw [hp]
      simp
      omega

theorem chain_gap_le {d : ℚ} (hd : 0 ≤ d) :
    ∀ (l : List ℚ) (c : ℚ), List.Chain' (fun x y => x + d ≤ y) (c :: l) →
      ∀ t ∈ l, c + d ≤ t := by
  intro l
  induction l with
  | nil => intro c _ t ht; simp at ht
  | cons y rest ih =>
    intro c hch t ht
    rw [List.chain'_cons] at hch
    rcases List.mem_cons.mp ht with h1 | h2
    · exact h1 ▸ hch.1
    · have := ih y hch.2 t h2
      have : c + d + d ≤ t := le_trans (by linarith [hch.1]) this
      linarith

theorem chain_countP_window {d : ℚ} (hd : 0 < d) :
    ∀ (l : List ℚ), List.Chain' (fun x y => x + d ≤ y) l →
      ∀ (k : ℕ) (a : ℚ),
        l.countP (fun t => decide (a ≤ t ∧ t ≤ a + k * d)) ≤ k + 1 := by
  intro l
  induction l with
  | nil => intro _ k a; simp
  | cons c rest ih =>
    intro hch k a
    have hrest : List.Chain' (fun x y => x + d ≤ y) rest := hch.tail
    rw [List.countP_cons]
    by_cases hp : (a ≤ c ∧ c ≤ a + k * d)
    · have hmem : ∀ t ∈ rest, c + d ≤ t := chain_gap_le hd.le rest c hch
      cases k with
      | zero =>
        have hzero : rest.countP (fun t => decide (a ≤ t ∧ t ≤ a + (0 : ℕ) * d)) = 0 := by
          rw [List.countP_eq_zero]
          intro t ht
          simp only [Nat.cast_zero, zero_mul, add_zero, decide_eq_true_eq, not_and, not_le]
          intro _
          have := hmem t ht
          linarith [hp.2]
        rw [hzero]
        split_ifs <;> omega
      | succ k' =>
        have hstep : rest.countP (fun t => decide (a ≤ t ∧ t ≤ a + (k' + 1 : ℕ) * d)) ≤
            rest.countP (fun t => decide ((c + d) ≤ t ∧ t ≤ (c + d) + k' * d)) := by
          apply countP_le_countP
          intro t ht hpt
          simp only [decide_eq_true_eq] at hpt ⊢
          refine ⟨hmem t ht, ?_⟩
          have h1 : t ≤ a + (k' + 1 : ℕ) * d := hpt.2
          have h2 : a ≤ c := hp.1
          push_cast at h1 ⊢
          linarith
        have hrec := ih hrest k' (c + d)
        rw [if_pos (by simpa using hp)]
        omega
    · rw [if_neg (by simpa using hp)]
      have := ih hrest k a
      omega

theorem recommendedFPS_bounds (d : DeviceTier) :
    15 ≤ d.recommendedFPS ∧ d.recommendedFPS ≤ 60 := by
  cases d <;> exact ⟨by decide, by decide⟩

theorem checkPerformanceAndAdjust_deviceTier (s : ViewState) (t : ℚ) :
    (checkPerformanceAndAdjust s t).1.deviceTier = s.deviceTier := by
  simp only [checkPerformanceAndAdjust, setTargetFPS]
  split_ifs <;> rfl

theorem checkPerformanceAndAdjust_targetFPS_cases (s : ViewState) (t : ℚ) :
    (checkPerformanceAndAdjust s t).1.targetFPS = s.targetFPS ∨
    ∃ n : ℤ, (checkPerformanceAndAdjust s t).1.targetFPS = max 1 (min n 60) := by
  simp only [checkPerformanceAndAdjust, setTargetFPS]
  split_ifs <;> first
    | exact Or.inl rfl
    | exact Or.inr ⟨_, rfl⟩

theorem checkPerformanceAndAdjust_targetFPS_bounds (s : ViewState) (t : ℚ)
    (h15 : 15 ≤ s.targetFPS) (hrec : s.targetFPS ≤ s.deviceTier.recommendedFPS) :
    15 ≤ (checkPerformanceAndAdjust s t).1.targetFPS ∧
    (checkPerformanceAndAdjust s t).1.targetFPS ≤ s.deviceTier.recommendedFPS := by
  have hb := recommendedFPS_bounds s.deviceTier
  simp only [checkPerformanceAndAdjust, setTargetFPS]
  split_ifs <;> simp only [] <;> constructor <;> omega

theorem runChecks_deviceTier : ∀ (ts : List ℚ) (s : ViewState),
    (runChecks s ts).deviceTier = s.deviceTier := by
  intro ts
  induction ts with
  | nil => intro s; rfl
  | cons t rest ih =>
    intro s
    simp only [runChecks]
    rw [ih, checkPerformanceAndAdjust_deviceTier]

theorem runChecks_targetFPS_bounds : ∀ (ts : List ℚ) (s : ViewState),
    15 ≤ s.targetFPS → s.targetFPS ≤ s.deviceTier.recommendedFPS →
    15 ≤ (runChecks s ts).targetFPS ∧
    (runChecks s ts).targetFPS ≤ s.deviceTier.recommendedFPS := by
  intro ts
  induction ts with
  | nil => intro s h15 hrec; exact ⟨h15, hrec⟩
  | cons t rest ih =>
    intro s h15 hrec
    have hstep := checkPerformanceAndAdjust_targetFPS_bounds s t h15 hrec
    have htier := checkPerformanceAndAdjust_deviceTier s t
    have := ih (checkPerformanceAndAdjust s t).1 hstep.1 (htier ▸ hstep.2)
    simpa only [runChecks, htier] using this

theorem runAdmission_chain (ts : List ℚ) : ∀ (s : ViewState),
    List.Chain' (fun x y => x + 1 / (s.targetFPS : ℚ) ≤ y)
      (s.lastFrameTime :: (runAdmission s ts).2) := by
  induction ts with
  | nil => intro s; simp [runAdmission]
  | cons t rest ih =>
    intro s
    simp only [runAdmission, shouldProcessFrame]
    by_cases hc : t - s.lastFrameTime ≥ 1 / (s.targetFPS : ℚ)
    · simp only [hc, if_true]
      rw [List.chain'_cons]
      exact ⟨by linarith, ih { s with lastFrameTime := t }⟩
    · simp only [hc, if_false]
      exact ih s

theorem lookupKey_filter_ne (m : List (ℤ × ℚ)) (k : ℤ) :
    lookupKey (m.filter (fun p => decide (p.1 ≠ k))) k = none := by
  induction m with
  | nil => rfl
  | cons p rest ih =>
    by_cases h : p.1 = k
    · simpa [List.filter_cons, h] using ih
    · simpa [List.filter_cons, h, lookupKey] using ih

theorem recordFPSHistory_of_lt (l : List ℚ) (v : ℚ) (h : l.length < 10) :
    recordFPSHistory l v = l ++ [v] := by
  simp [recordFPSHistory]
  omega

theorem recordFPSHistory_of_ge (l : List ℚ) (v : ℚ) (h : 10 ≤ l.length) :
    recordFPSHistory l v = (l ++ [v]).tail := by
  simp [recordFPSHistory]
  omega

theorem length_recordFPSHistory_le (l : List ℚ) (v : ℚ) (h : l.length ≤ 10) :
    (recordFPSHistory l v).length ≤ 10 := by
  by_cases hl : l.length < 10
  · rw [recordFPSHistory_of_lt l v hl]
    simp
    omega
  · rw [recordFPSHistory_of_ge l v (by omega)]
    simp
    omega

theorem foldl_recordFPSHistory (vs : List ℚ) :
    List.foldl recordFPSHistory [] vs = vs.drop (vs.length - 10) := by
  induction vs using List.reverseRecOn with
  | nil => rfl
  | append_singleton l a ih =>
    rw [List.foldl_append, ih]
    simp only [List.foldl_cons, List.foldl_nil]
    by_cases hl : l.length < 10
    · rw [Nat.sub_eq_zero_of_le (le_of_lt hl), List.drop_zero,
        recordFPSHistory_of_lt l a hl,
        Nat.sub_eq_zero_of_le (by simp; omega), List.drop_zero]
    · have h10 : 10 ≤ l.length := by omega
      have hlen : (l.drop (l.length - 10)).length = 10 := by
        simp
        omega
      rw [recordFPSHistory_of_ge (l.drop (l.length - 10)) a (by omega)]
      have hne : l.drop (l.length - 10) ≠ [] := by
        intro hnil
        rw [hnil] at hlen
        simp at hlen
      rw [List.tail_append_of_ne_nil hne, List.tail_drop]
      have harith : (l ++ [a]).length - 10 = l.length - 10 + 1 := by
        simp
        omega
      rw [harith, List.drop_append_of_le_length (by omega)]

theorem checkPerformanceAndAdjust_lower_eq (s : ViewState) (t : ℚ)
    (hen : s.isAutoAdjustEnabled = true)
    (htime : t - s.lastPerformanceCheck ≥ performanceCheckInterval)
    (hlen : 5 ≤ s.fpsHistory.length)
    (heff : s.fpsHistory.sum / (s.fpsHistory.length : ℚ) / (s.targetFPS : ℚ) < 8/10)
    (h15 : 15 < s.targetFPS) :
    checkPerformanceAndAdjust s t =
      ({ s with lastPerformanceCheck := t,
                targetFPS := max 1 (min (max 15 (s.targetFPS - 5)) 60),
                lastReportedFPS := s.currentFPS,
                lastFPSReportTime := t },
       some { fps := s.currentFPS, frameCount := s.frameCount, autoAdjusted := true,
              newTargetFPS := some (max 15 (s.targetFPS - 5)),
              reason := some "Performance optimization" }) := by
  simp only [checkPerformanceAndAdjust, setTargetFPS]
  rw [if_pos ⟨hen, htime⟩, if_pos (by simpa using hlen),
    if_pos ⟨by simpa using heff, by simpa using h15⟩]

theorem degradedState_cycle_eq :
    checkPerformanceAndAdjust degradedState 6 =
      ({ degradedState with lastPerformanceCheck := 6,
                            targetFPS := max 1 (min (max 15 (30 - 5)) 60),
                            lastReportedFPS := 0,
                            lastFPSReportTime := 6 },
       some { fps := 0, frameCount := 0, autoAdjusted := true,
              newTargetFPS := some (max 15 (30 - 5)),
              reason := some "Performance optimization" }) :=
  checkPerformanceAndAdjust_lower_eq degradedState 6 rfl
    (by norm_num [degradedState, baseState, performanceCheckInterval])
    (by norm_num [degradedState, baseState])
    (by norm_num [degradedState, baseState])
    (by norm_num [degradedState, baseState])

theorem fpsReportThrottle_emit_eq (s : ViewState) (now : ℚ)
    (h : |s.currentFPS - s.lastReportedFPS| ≥ s.fpsChangeThreshold ∨
         (now - s.lastFPSReportTime) * 1000 ≥ s.fpsReportThrottleMs) :
    fpsReportThrottle s now =
      ({ s with lastReportedFPS := s.currentFPS, lastFPSReportTime := now },
       some { fps := s.currentFPS, frameCount := s.frameCount, autoAdjusted := false,
              newTargetFPS := none, reason := none }) := by
  simp only [fpsReportThrottle]
  rw [if_pos h]

theorem fpsJumpState_magnitude :
    |fpsJumpState.currentFPS - fpsJumpState.lastReportedFPS| ≥
      fpsJumpState.fpsChangeThreshold := by
  show |(33 : ℚ) - 30| ≥ 2
  rw [show (33 : ℚ) - 30 = 3 by norm_num, abs_of_pos (by norm_num)]
  norm_num

theorem fpsJumpState_emits :
    (fpsReportThrottle fpsJumpState (100 + 1/100)).2.isSome = true := by
  rw [fpsReportThrottle_emit_eq fpsJumpState (100 + 1/100) (Or.inl fpsJumpState_magnitude)]
  rfl

theorem onPoseResult_emit_eq (s : ViewState) (now : ℚ) (lm : List (ℚ × ℚ × ℚ × ℚ)) (pt : ℚ)
    (hen : s.isPoseDetectionEnabled = true) (hstr : s.enablePoseDataStreaming = true)
    (hge : (now - s.lastPoseDataSentTime) * 1000 ≥ (s.poseDataThrottleMs : ℚ)) :
    onPoseResult s now lm pt =
      ({ s with lastPoseDataSentTime := now },
       some { landmarks := lm, processingTime := pt, timestamp := now }) := by
  simp only [onPoseResult]
  rw [if_pos hen, if_pos hstr, if_pos hge]

theorem onPoseResult_not_yet (s : ViewState) (now : ℚ) (lm : List (ℚ × ℚ × ℚ × ℚ)) (pt : ℚ)
    (h : (now - s.lastPoseDataSentTime) * 1000 < (s.poseDataThrottleMs : ℚ)) :
    onPoseResult s now lm pt = (s, none) := by
  simp only [onPoseResult]
  split_ifs with h1 h2 h3 <;> first
    | rfl
    | exact absurd h3 (not_le.mpr h)

theorem onPoseResult_none_state (s : ViewState) (now : ℚ) (lm : List (ℚ × ℚ × ℚ × ℚ)) (pt : ℚ)
    (h : (onPoseResult s now lm pt).2 = none) : (onPoseResult s now lm pt).1 = s := by
  simp only [onPoseResult] at h ⊢
  split_ifs at h ⊢ <;> simp_all

theorem onPoseResult_emit_spec (s : ViewState) (now : ℚ) (lm : List (ℚ × ℚ × ℚ × ℚ)) (pt : ℚ)
    (hemit : (onPoseResult s now lm pt).2.isSome = true) :
    (onPoseResult s now lm pt).1 = { s with lastPoseDataSentTime := now } ∧
    s.isPoseDetectionEnabled = true ∧ s.enablePoseDataStreaming = true ∧
    (now - s.lastPoseDataSentTime) * 1000 ≥ (s.poseDataThrottleMs : ℚ) := by
  simp only [onPoseResult] at hemit ⊢
  split_ifs at hemit ⊢ with h1 h2 <;> simp_all

theorem onPoseResult_gate (s : ViewState) (now : ℚ) (lm : List (ℚ × ℚ × ℚ × ℚ)) (pt : ℚ)
    (hen : s.isPoseDetectionEnabled = true) :
    (onPoseResult s now lm pt).2.isSome = true ↔
      (s.enablePoseDataStreaming = true ∧
        (now - s.lastPoseDataSentTime) * 1000 ≥ (s.poseDataThrottleMs : ℚ)) := by
  simp only [onPoseResult]
  split_ifs with h1 h2 <;> simp_all

theorem runPoseResults_all_below (rs : List (ℚ × List (ℚ × ℚ × ℚ × ℚ) × ℚ)) :
    ∀ (s : ViewState),
    (∀ r ∈ rs, (r.1 - s.lastPoseDataSentTime) * 1000 < (s.poseDataThrottleMs : ℚ)) →
    runPoseResults s rs = (s, []) := by
  induction rs with
  | nil => intro s _; rfl
  | cons r rest ih =>
    intro s h
    have hstep := onPoseResult_not_yet s r.1 r.2.1 r.2.2 (h r (List.mem_cons_self r rest))
    simp only [runPoseResults, hstep]
    rw [ih s (fun r' hr' => h r' (List.mem_cons_of_mem r hr'))]

theorem runPoseResults_burst_le_one :
    ∀ (rs : List (ℚ × List (ℚ × ℚ × ℚ × ℚ) × ℚ)) (s : ViewState) (t1 : ℚ),
    (s.poseDataThrottleMs : ℚ) ≥ 100 →
    (∀ r ∈ rs, t1 ≤ r.1 ∧ r.1 ≤ t1 + 1/20) →
    (runPoseResults s rs).2.length ≤ 1 := by
  intro rs
  induction rs with
  | nil => intro s t1 _ _; simp [runPoseResults]
  | cons r rest ih =>
    intro s t1 hthr hspan
    by_cases hemit : (onPoseResult s r.1 r.2.1 r.2.2).2.isSome = true
    · obtain ⟨hst, _, _, _⟩ := onPoseResult_emit_spec s r.1 r.2.1 r.2.2 hemit
      obtain ⟨e, he⟩ := Option.isSome_iff_exists.mp hemit
      have hrest : runPoseResults (onPoseResult s r.1 r.2.1 r.2.2).1 rest =
          ((onPoseResult s r.1 r.2.1 r.2.2).1, []) := by
        apply runPoseResults_all_below
        intro r' hr'
        rw [hst]
        have hr1 := (hspan r (List.mem_cons_self r rest)).1
        have hr2 := (hspan r' (List.mem_cons_of_mem r hr')).2
        show (r'.1 - r.1) * 1000 < (s.poseDataThrottleMs : ℚ)
        have : r'.1 - r.1 ≤ 1/20 := by linarith
        linarith
      simp only [runPoseResults, hrest, he]
      simp
    · have hnone : (onPoseResult s r.1 r.2.1 r.2.2).2 = none :=
        Option.not_isSome_iff_eq_none.mp hemit
      have hst := onPoseResult_none_state s r.1 r.2.1 r.2.2 hnone
      have := ih s t1 hthr (fun r' hr' => hspan r' (List.mem_cons_of_mem r hr'))
      simp only [runPoseResults, hnone, hst]
      exact this

theorem runPoseResults_burst_eq_one (r : ℚ × List (ℚ × ℚ × ℚ × ℚ) × ℚ)
    (rest : List (ℚ × List (ℚ × ℚ × ℚ × ℚ) × ℚ)) (s : ViewState) (t1 : ℚ)
    (hthr : (s.poseDataThrottleMs : ℚ) = 100)
    (hen : s.isPoseDetectionEnabled = true) (hstr : s.enablePoseDataStreaming = true)
    (hspan : ∀ x ∈ (r :: rest), t1 ≤ x.1 ∧ x.1 ≤ t1 + 1/20)
    (hfirst : (r.1 - s.lastPoseDataSentTime) * 1000 ≥ 100) :
    (runPoseResults s (r :: rest)).2.length = 1 := by
  have hstep := onPoseResult_emit_eq s r.1 r.2.1 r.2.2 hen hstr (by rw [hthr]; exact hfirst)
  have hrest : runPoseResults ({ s with lastPoseDataSentTime := r.1 } : ViewState) rest =
      ({ s with lastPoseDataSentTime := r.1 }, []) := by
    apply runPoseResults_all_below
    intro r' hr'
    have hr1 := (hspan r (List.mem_cons_self r rest)).1
    have hr2 := (hspan r' (List.mem_cons_of_mem r hr')).2
    show (r'.1 - r.1) * 1000 < (s.poseDataThrottleMs : ℚ)
    have : r'.1 - r.1 ≤ 1/20 := by linarith
    linarith [hthr]
  simp only [runPoseResults, hstep, hrest]
  rfl

/- ## Claims -/

/-- C1: the admission gate `shouldProcessFrame` admits exactly when
`now - lastFrameTime ≥ 1 / targetFPS`, sets `lastFrameTime := now` on
admission (and changes nothing on rejection), and consequently over any
sequence of frame arrivals with arbitrary timestamps, the number of
admitted frames whose timestamps fall in any closed 1-second window is at
most `targetFPS + 1`. -/
theorem C1_admission_gate_and_rate_bound (s : ViewState) (h : 1 ≤ s.targetFPS) :
    (∀ now : ℚ,
      ((shouldProcessFrame s now).1 = true ↔ now - s.lastFrameTime ≥ 1 / (s.targetFPS : ℚ)) ∧
      ((shouldProcessFrame s now).1 = true → (shouldProcessFrame s now).2.lastFrameTime = now) ∧
      ((shouldProcessFrame s now).1 = false → (shouldProcessFrame s now).2 = s)) ∧
    (∀ (ts : List ℚ) (a : ℚ),
      (runAdmission s ts).2.countP (fun t => decide (a ≤ t ∧ t ≤ a + 1)) ≤
        s.targetFPS.toNat + 1) := by
  have hfpos : (0 : ℚ) < (s.targetFPS : ℚ) := by
    exact_mod_cast lt_of_lt_of_le zero_lt_one h
  have hd : 0 < 1 / (s.targetFPS : ℚ) := by positivity
  constructor
  · intro now
    refine ⟨?_, ?_, ?_⟩ <;> simp only [shouldProcessFrame] <;> split_ifs with hc <;> simp_all
  · intro ts a
    have hchain := (runAdmission_chain ts s).tail
    have hcount := chain_countP_window hd _ hchain s.targetFPS.toNat a
    have h1 : ((s.targetFPS.toNat : ℕ) : ℚ) = (s.targetFPS : ℚ) := by
      exact_mod_cast Int.toNat_of_nonneg (by omega)
    have hkd : ((s.targetFPS.toNat : ℕ) : ℚ) * (1 / (s.targetFPS : ℚ)) = 1 := by
      rw [h1, mul_one_div, div_self (ne_of_gt hfpos)]
    rw [hkd] at hcount
    exact hcount

/-- C1 witness: with a target of 2 FPS and arrivals every quarter second,
at most 3 frames are admitted in the window [0, 1]. -/
theorem C1_admission_gate_and_rate_bound_witness :
    (runAdmission { baseState with targetFPS := 2 } [0, 1/4, 1/2, 3/4, 1]).2.countP
      (fun t => decide ((0 : ℚ) ≤ t ∧ t ≤ 0 + 1)) ≤ 3 :=
  (C1_admission_gate_and_rate_bound { baseState with targetFPS := 2 }
    (by norm_num)).2 [0, 1/4, 1/2, 3/4, 1] 0

/-- C7: pushing onto `fpsHistory` never grows it past 10 elements, the
oldest element is evicted on overflow (so from an empty history the
buffer after any pushes holds exactly the most recent 10 values, in
arrival order), and after exactly 20 pushes the length is exactly 10 and
the buffer is the last 10 pushed values in order. -/
theorem C7_fps_history_ring_buffer :
    (∀ (l : List ℚ) (v : ℚ), l.length ≤ 10 → (recordFPSHistory l v).length ≤ 10) ∧
    (∀ vs : List ℚ, List.foldl recordFPSHistory [] vs = vs.drop (vs.length - 10)) ∧
    (∀ vs : List ℚ, vs.length = 20 →
      (List.foldl recordFPSHistory [] vs).length = 10 ∧
      List.foldl recordFPSHistory [] vs = vs.drop 10) := by
  refine ⟨length_recordFPSHistory_le, foldl_recordFPSHistory, ?_⟩
  intro vs h20
  rw [foldl_recordFPSHistory, h20]
  constructor
  · simp [h20]
  · rfl

/-- C7 witness: a concrete run of 20 pushes. -/
theorem C7_fps_history_ring_buffer_witness :
    (List.foldl recordFPSHistory []
      [0, 1, 2, 3, 4, 5, 6, 7, 8, 9, 10, 11, 12, 13, 14, 15, 16, 17, 18, 19]).length = 10 ∧
    List.foldl recordFPSHistory []
      [0, 1, 2, 3, 4, 5, 6, 7, 8, 9, 10, 11, 12, 13, 14, 15, 16, 17, 18, 19] =
      [10, 11, 12, 13, 14, 15, 16, 17, 18, 19] :=
  ⟨(C7_fps_history_ring_buffer.2.2
      [0, 1, 2, 3, 4, 5, 6, 7, 8, 9, 10, 11, 12, 13, 14, 15, 16, 17, 18, 19] rfl).1,
   (C7_fps_history_ring_buffer.2.2
      [0, 1, 2, 3, 4, 5, 6, 7, 8, 9, 10, 11, 12, 13, 14, 15, 16, 17, 18, 19] rfl).2⟩

/-- C2: starting from a `targetFPS` within `[15, tier.recommendedFPS]`,
one auto-adjustment check — and any sequence of auto-adjustment checks —
keeps `targetFPS` within `[15, tier.recommendedFPS]`: the lowering branch
(guarded by `targetFPS > 15`) computes `max(15, targetFPS - 5)` and the
raising branch (guarded by `targetFPS < tier.recommendedFPS`) computes
`min(tier.recommendedFPS, targetFPS + 5)`. -/
theorem C2_auto_tune_bounds (s : ViewState) (h15 : 15 ≤ s.targetFPS)
    (hrec : s.targetFPS ≤ s.deviceTier.recommendedFPS) :
    (∀ t : ℚ,
      15 ≤ (checkPerformanceAndAdjust s t).1.targetFPS ∧
      (checkPerformanceAndAdjust s t).1.targetFPS ≤ s.deviceTier.recommendedFPS) ∧
    (∀ ts : List ℚ,
      15 ≤ (runChecks s ts).targetFPS ∧
      (runChecks s ts).targetFPS ≤ s.deviceTier.recommendedFPS) :=
  ⟨fun t => checkPerformanceAndAdjust_targetFPS_bounds s t h15 hrec,
   fun ts => runChecks_targetFPS_bounds ts s h15 hrec⟩

/-- C2 witness: from the base state (target 30, tier unknown with
recommended FPS 30), five checks leave the target within [15, 30]. -/
theorem C2_auto_tune_bounds_witness :
    15 ≤ (runChecks baseState [5, 10, 15, 20, 25]).targetFPS ∧
    (runChecks baseState [5, 10, 15, 20, 25]).targetFPS ≤
      baseState.deviceTier.recommendedFPS :=
  (C2_auto_tune_bounds baseState (by norm_num [baseState])
    (by norm_num [baseState, DeviceTier.recommendedFPS])).2 [5, 10, 15, 20, 25]

/-- C3: `setTargetFPS` stores `max(1, min(fps, 60))` for every integer
argument, and under any sequence of sets and auto-adjustment checks a
state with `targetFPS` in [1, 60] keeps it in [1, 60]; in particular
`targetFPS` is never 0 or negative, so the divisor `Double(targetFPS)` of
the admission gate's `1.0 / Double(targetFPS)` is never zero. -/
theorem C3_target_fps_never_zero (s : ViewState) (h1 : 1 ≤ s.targetFPS)
    (h60 : s.targetFPS ≤ 60) :
    (∀ fps : ℤ, (setTargetFPS s fps).targetFPS = max 1 (min fps 60)) ∧
    (∀ acts : List GovAction,
      1 ≤ (runGovActions s acts).targetFPS ∧
      (runGovActions s acts).targetFPS ≤ 60 ∧
      (runGovActions s acts).targetFPS ≠ 0 ∧
      ((runGovActions s acts).targetFPS : ℚ) ≠ 0) := by
  refine ⟨fun _ => rfl, ?_⟩
  suffices hmain : ∀ (acts : List GovAction) (s : ViewState),
      1 ≤ s.targetFPS → s.targetFPS ≤ 60 →
      1 ≤ (runGovActions s acts).targetFPS ∧ (runGovActions s acts).targetFPS ≤ 60 by
    intro acts
    have hb := hmain acts s h1 h60
    refine ⟨hb.1, hb.2, by omega, ?_⟩
    have : (runGovActions s acts).targetFPS ≠ 0 := by omega
    exact_mod_cast this
  intro acts
  induction acts with
  | nil => intro s ha hb; exact ⟨ha, hb⟩
  | cons a rest ih =>
    intro s ha hb
    have hstep : 1 ≤ (applyGovAction s a).targetFPS ∧ (applyGovAction s a).targetFPS ≤ 60 := by
      cases a with
      | set fps =>
        simp only [applyGovAction, setTargetFPS]
        omega
      | check t =>
        rcases checkPerformanceAndAdjust_targetFPS_cases s t with hsame | ⟨n, hclamp⟩
        · simp only [applyGovAction]
          omega
        · simp only [applyGovAction]
          omega
    exact ih (applyGovAction s a) hstep.1 hstep.2

/-- C3 witness: a set to -7 followed by an auto-adjustment check keeps
the target in [1, 60] and nonzero. -/
theorem C3_target_fps_never_zero_witness :
    1 ≤ (runGovActions baseState [.set (-7), .check 6]).targetFPS ∧
    (runGovActions baseState [.set (-7), .check 6]).targetFPS ≤ 60 ∧
    (runGovActions baseState [.set (-7), .check 6]).targetFPS ≠ 0 ∧
    ((runGovActions baseState [.set (-7), .check 6]).targetFPS : ℚ) ≠ 0 :=
  (C3_target_fps_never_zero baseState (by norm_num [baseState])
    (by norm_num [baseState])).2 [.set (-7), .check 6]

/-- C4 counterexample: a concrete adjustment cycle (auto-adjust enabled,
5 samples averaging 20 against a target of 30, so efficiency 2/3 < 0.8,
and target 30 > 15) does lower the target to 25, but the emitted event's
reason is the string "Performance optimization" (capital P), not
"performance optimization" as the claim states. -/
theorem C4_lowering_reason_counterexample :
    (checkPerformanceAndAdjust degradedState 6).1.targetFPS = 25 ∧
    ((checkPerformanceAndAdjust degradedState 6).2.map (fun ev => ev.reason)) =
      some (some "Performance optimization") ∧
    ((checkPerformanceAndAdjust degradedState 6).2.map (fun ev => ev.reason)) ≠
      some (some "performance optimization") := by
  rw [degradedState_cycle_eq]
  refine ⟨by norm_num, rfl, by decide⟩

/-- C4 (amended): whenever an adjustment cycle runs (auto-adjust enabled
and the 5-second self-throttle elapsed) with at least 5 samples,
efficiency below 0.8 and `targetFPS` in (15, 60], it lowers `targetFPS`
by 5 floored at 15 and emits an adjustment event whose reason field is
the string "Performance optimization". -/
theorem C4_lowering_branch (s : ViewState) (t : ℚ)
    (hen : s.isAutoAdjustEnabled = true)
    (htime : t - s.lastPerformanceCheck ≥ performanceCheckInterval)
    (hlen : 5 ≤ s.fpsHistory.length)
    (heff : s.fpsHistory.sum / (s.fpsHistory.length : ℚ) / (s.targetFPS : ℚ) < 8/10)
    (h15 : 15 < s.targetFPS) (h60 : s.targetFPS ≤ 60) :
    (checkPerformanceAndAdjust s t).1.targetFPS = max 15 (s.targetFPS - 5) ∧
    ∃ ev : FrameProcessedEvent,
      (checkPerformanceAndAdjust s t).2 = some ev ∧
      ev.reason = some "Performance optimization" ∧
      ev.autoAdjusted = true ∧
      ev.newTargetFPS = some (max 15 (s.targetFPS - 5)) := by
  rw [checkPerformanceAndAdjust_lower_eq s t hen htime hlen heff h15]
  exact ⟨by simp; omega, ⟨_, rfl, rfl, rfl, rfl⟩⟩

/-- C4 witness: the amended claim at the concrete cycle of the
counterexample. -/
theorem C4_lowering_branch_witness :
    (checkPerformanceAndAdjust degradedState 6).1.targetFPS =
      max 15 (degradedState.targetFPS - 5) ∧
    ∃ ev : FrameProcessedEvent,
      (checkPerformanceAndAdjust degradedState 6).2 = some ev ∧
      ev.reason = some "Performance optimization" ∧
      ev.autoAdjusted = true ∧
      ev.newTargetFPS = some (max 15 (degradedState.targetFPS - 5)) :=
  C4_lowering_branch degradedState 6 rfl
    (by norm_num [degradedState, baseState, performanceCheckInterval])
    (by norm_num [degradedState, baseState])
    (by norm_num [degradedState, baseState])
    (by norm_num [degradedState, baseState])
    (by norm_num [degradedState, baseState])

/-- C5: the FPS-report throttle emits exactly when the change magnitude
reaches `fpsChangeThreshold` or `fpsReportThrottleMs` milliseconds have
elapsed since the last report; on emission both `lastFPSReportTime` and
`lastReportedFPS` are updated (and a suppressed report changes nothing);
in particular with throttle 500 ms and threshold 2.0, a jump from 30.0 to
33.0 arriving 10 ms after the previous report is emitted immediately. -/
theorem C5_fps_report_throttle (s : ViewState) (now : ℚ) :
    ((fpsReportThrottle s now).2.isSome = true ↔
      (|s.currentFPS - s.lastReportedFPS| ≥ s.fpsChangeThreshold ∨
        (now - s.lastFPSReportTime) * 1000 ≥ s.fpsReportThrottleMs)) ∧
    ((fpsReportThrottle s now).2.isSome = true →
      (fpsReportThrottle s now).1.lastFPSReportTime = now ∧
      (fpsReportThrottle s now).1.lastReportedFPS = s.currentFPS) ∧
    ((fpsReportThrottle s now).2.isSome = false → (fpsReportThrottle s now).1 = s) ∧
    (fpsReportThrottle fpsJumpState (100 + 1/100)).2.isSome = true := by
  refine ⟨?_, ?_, ?_, fpsJumpState_emits⟩ <;>
    simp only [fpsReportThrottle] <;> split_ifs with hc <;> simp_all

/-- C5 witness: at the concrete 30 → 33 jump 10 ms after the previous
report, the throttle emits and updates both tracking fields. -/
theorem C5_fps_report_throttle_witness :
    (fpsReportThrottle fpsJumpState (100 + 1/100)).1.lastFPSReportTime = 100 + 1/100 ∧
    (fpsReportThrottle fpsJumpState (100 + 1/100)).1.lastReportedFPS =
      fpsJumpState.currentFPS :=
  (C5_fps_report_throttle fpsJumpState (100 + 1/100)).2.1 fpsJumpState_emits

/-- C6 counterexample: with streaming enabled and the default 100 ms
throttle, a result arriving at t = 0.1 s is emitted; a burst of 1000
results all arriving at t = 0.11 s (a span well within 50 ms) then yields
zero emitted results, not exactly one as the claim states, because the
burst begins only 10 ms after the previous emission. -/
theorem C6_burst_counterexample :
    (onPoseResult streamState (1/10) [] 0).2.isSome = true ∧
    (runPoseResults (onPoseResult streamState (1/10) [] 0).1
        (List.replicate 1000 (11/100, ([], 0)))).2.length = 0 ∧
    (0 : ℕ) ≠ 1 := by
  have hfirst : onPoseResult streamState (1/10) [] 0 =
      ({ streamState with lastPoseDataSentTime := 1/10 },
       some { landmarks := [], processingTime := 0, timestamp := 1/10 }) := by
    apply onPoseResult_emit_eq streamState (1/10) [] 0 rfl rfl
    norm_num [streamState, baseState]
  refine ⟨by rw [hfirst]; rfl, ?_, by decide⟩
  rw [hfirst]
  have hnone : runPoseResults ({ streamState with lastPoseDataSentTime := 1/10 } : ViewState)
      (List.replicate 1000 (11/100, ([], 0))) =
      ({ streamState with lastPoseDataSentTime := 1/10 }, []) := by
    apply runPoseResults_all_below
    intro r hr
    rw [List.eq_of_mem_replicate hr]
    show ((11/100 : ℚ) - 1/10) * 1000 < ((streamState.poseDataThrottleMs : ℤ) : ℚ)
    norm_num [streamState, baseState]
  rw [hnone]
  rfl

/-- C6 (amended): when pose detection is enabled at delivery time, the
pose-result throttle gates on interval only — a result is emitted exactly
when streaming is enabled and `(now - lastEmitTime) * 1000 ≥
resultThrottleMs`, updating `lastEmitTime` on emission — so a burst of
pose results within a 50 ms span with a throttle of at least 100 ms
yields at most one emitted result, and exactly one when the first result
of the burst arrives at least 100 ms after the previous emission. -/
theorem C6_pose_result_throttle (s : ViewState) :
    (s.isPoseDetectionEnabled = true →
      ∀ (now : ℚ) (lm : List (ℚ × ℚ × ℚ × ℚ)) (pt : ℚ),
        ((onPoseResult s now lm pt).2.isSome = true ↔
          (s.enablePoseDataStreaming = true ∧
            (now - s.lastPoseDataSentTime) * 1000 ≥ (s.poseDataThrottleMs : ℚ))) ∧
        ((onPoseResult s now lm pt).2.isSome = true →
          (onPoseResult s now lm pt).1.lastPoseDataSentTime = now)) ∧
    (∀ (rs : List (ℚ × List (ℚ × ℚ × ℚ × ℚ) × ℚ)) (t1 : ℚ),
      (s.poseDataThrottleMs : ℚ) ≥ 100 →
      (∀ r ∈ rs, t1 ≤ r.1 ∧ r.1 ≤ t1 + 1/20) →
      (runPoseResults s rs).2.length ≤ 1) ∧
    (∀ (r : ℚ × List (ℚ × ℚ × ℚ × ℚ) × ℚ) (rest : List (ℚ × List (ℚ × ℚ × ℚ × ℚ) × ℚ))
        (t1 : ℚ),
      (s.poseDataThrottleMs : ℚ) = 100 →
      s.isPoseDetectionEnabled = true → s.enablePoseDataStreaming = true →
      (∀ x ∈ (r :: rest), t1 ≤ x.1 ∧ x.1 ≤ t1 + 1/20) →
      (r.1 - s.lastPoseDataSentTime) * 1000 ≥ 100 →
      (runPoseResults s (r :: rest)).2.length = 1) := by
  refine ⟨?_, ?_, ?_⟩
  · intro hen now lm pt
    refine ⟨onPoseResult_gate s now lm pt hen, fun hemit => ?_⟩
    rw [(onPoseResult_emit_spec s now lm pt hemit).1]
  · intro rs t1 hthr hspan
    exact runPoseResults_burst_le_one rs s t1 hthr hspan
  · intro r rest t1 hthr hen hstr hspan hfirst
    exact runPoseResults_burst_eq_one r rest s t1 hthr hen hstr hspan hfirst

/-- C6 witness: from the streaming state, a burst whose first result
arrives 100 ms after the last emission and whose remaining results arrive
10 ms later yields exactly one emitted result. -/
theorem C6_pose_result_throttle_witness :
    (runPoseResults streamState
      [(1/10, ([], 0)), (11/100, ([], 0)), (11/100, ([], 0))]).2.length = 1 :=
  (C6_pose_result_throttle streamState).2.2 (1/10, ([], 0))
    [(11/100, ([], 0)), (11/100, ([], 0))] (1/10)
    (by norm_num [streamState, baseState]) rfl rfl
    (by
      intro x hx
      fin_cases hx <;> norm_num)
    (by norm_num [streamState, baseState])

/-- C9: a pose result delivered while pose detection is disabled is
discarded — the delegate handler guards on the enablement flag at
delivery time, so it emits nothing and leaves the state untouched, and an
entire stream of results delivered while disabled emits nothing. -/
theorem C9_disabled_results_discarded (s : ViewState)
    (hdis : s.isPoseDetectionEnabled = false) :
    (∀ (now : ℚ) (lm : List (ℚ × ℚ × ℚ × ℚ)) (pt : ℚ),
      (onPoseResult s now lm pt).2 = none ∧ (onPoseResult s now lm pt).1 = s) ∧
    (∀ rs : List (ℚ × List (ℚ × ℚ × ℚ × ℚ) × ℚ),
      (runPoseResults s rs).2 = [] ∧ (runPoseResults s rs).1 = s) := by
  have hstep : ∀ (now : ℚ) (lm : List (ℚ × ℚ × ℚ × ℚ)) (pt : ℚ),
      onPoseResult s now lm pt = (s, none) := by
    intro now lm pt
    simp only [onPoseResult, hdis]
    rfl
  refine ⟨fun now lm pt => by rw [hstep now lm pt]; exact ⟨rfl, rfl⟩, ?_⟩
  intro rs
  induction rs with
  | nil => exact ⟨rfl, rfl⟩
  | cons r rest ih =>
    simp only [runPoseResults, hstep r.1 r.2.1 r.2.2]
    exact ih

/-- C9 witness: with detection disabled (the base state), a concrete
result and a concrete stream of results are both discarded. -/
theorem C9_disabled_results_discarded_witness :
    ((onPoseResult baseState 5 [] 1).2 = none ∧ (onPoseResult baseState 5 [] 1).1 = baseState) ∧
    ((runPoseResults baseState [(5, ([], 1)), (6, ([], 2))]).2 = [] ∧
      (runPoseResults baseState [(5, ([], 1)), (6, ([], 2))]).1 = baseState) :=
  ⟨(C9_disabled_results_discarded baseState rfl).1 5 [] 1,
   (C9_disabled_results_discarded baseState rfl).2 [(5, ([], 1)), (6, ([], 2))]⟩

/-- C8: toggling `autoAdjustFPS` off and back on leaves `fpsHistory`
empty (the setter clears it on disable and re-enabling restores
nothing), with the flag enabled again afterwards. -/
theorem C8_disable_enable_clears_history (s : ViewState) :
    (setAutoAdjustFPS (setAutoAdjustFPS s false) true).fpsHistory = [] ∧
    (setAutoAdjustFPS (setAutoAdjustFPS s false) true).isAutoAdjustEnabled = true := by
  simp [setAutoAdjustFPS]

/-- C10: a completion callback whose correlation timestamp is absent from
`frameStartTimes` (never dispatched, or already consumed) reports a
processing time of exactly 0: the missing start time defaults to the
arrival time, and every callback removes its key, so in particular a
second callback for the same key also reports 0. -/
theorem C10_missing_key_zero_processing_time :
    (∀ (m : List (ℤ × ℚ)) (ts : ℤ) (endTime : ℚ),
      lookupKey m ts = none → (didFinishDetection m ts endTime).1 = 0) ∧
    (∀ (m : List (ℤ × ℚ)) (ts : ℤ) (endTime : ℚ),
      lookupKey (didFinishDetection m ts endTime).2 ts = none) ∧
    (∀ (m : List (ℤ × ℚ)) (ts : ℤ) (e1 e2 : ℚ),
      (didFinishDetection (didFinishDetection m ts e1).2 ts e2).1 = 0) := by
  have habsent : ∀ (m : List (ℤ × ℚ)) (ts : ℤ) (endTime : ℚ),
      lookupKey m ts = none → (didFinishDetection m ts endTime).1 = 0 := by
    intro m ts endTime h
    simp [didFinishDetection, dictRemove, h]
  have hremoved : ∀ (m : List (ℤ × ℚ)) (ts : ℤ) (endTime : ℚ),
      lookupKey (didFinishDetection m ts endTime).2 ts = none := by
    intro m ts endTime
    show lookupKey (m.filter (fun p => decide (p.1 ≠ ts))) ts = none
    exact lookupKey_filter_ne m ts
  exact ⟨habsent, hremoved, fun m ts e1 e2 => habsent _ ts e2 (hremoved m ts e1)⟩

/-- C10 witness: a callback against an empty in-flight map reports 0. -/
theorem C10_missing_key_zero_processing_time_witness :
    lookupKey ([] : List (ℤ × ℚ)) 42 = none ∧
    (didFinishDetection ([] : List (ℤ × ℚ)) 42 7).1 = 0 :=
  ⟨rfl, C10_missing_key_zero_processing_time.1 [] 42 7 rfl⟩

end MediapipePose
